import Mathlib

/-!
Verification of the `ask-my-course` package (`_api/api.py`) against its
natural-language specification.

The development shallowly embeds the Python source:
* the sliding-window chunking loop of `index_lecture` (window 200, overlap 50,
  stride 150) as `window_starts` / `index_lecture_windows` /
  `index_lecture_chunks`;
* the tag-based status update `_update_file_status` as `update_file_status`,
  with the outcome of each external tag deletion made explicit;
* the side-effect order of `transcribe_lecture` / `index_lecture` as event
  traces;
* the `answer` endpoint as a state-passing function over a chat-history store,
  parametric in the (external) question-answering chain.
-/

set_option maxRecDepth 40000

/-- One timestamp tag of a transcribed block: `tag.name` is the token text,
`tag.value` holds `start_time` / `end_time` (an opaque value type `V`), and
`start_idx` / `end_idx` are the tag's positions.  Mirrors the fields of the
Steamship `Tag` objects read by `index_lecture`. -/
structure TimestampTag (V : Type) where
  name : String
  start_time : V
  end_time : V
  start_idx : Nat
  end_idx : Nat
deriving DecidableEq, Repr

/-- A langchain `Document` as built by `index_lecture`: `page_content` plus the
metadata dictionary `{start_time, end_time, start_idx, end_idx, source}`. -/
structure Doc (V : Type) where
  page_content : String
  start_time : V
  end_time : V
  start_idx : Nat
  end_idx : Nat
  source : String
deriving DecidableEq, Repr

/-- `context_window_size = 200` from `index_lecture`. -/
def context_window_size : Nat := 200

/-- `context_window_overlap = 50` from `index_lecture`. -/
def context_window_overlap : Nat := 50

/-- The step of the chunking loop:
`range(0, len(timestamps), context_window_size - context_window_overlap)`. -/
def window_stride : Nat := context_window_size - context_window_overlap

/-- The start indices visited by the chunking loop of `index_lecture`:
`range(0, n, window_stride)`, i.e. the multiples of the stride below `n`. -/
def window_starts (n : Nat) : List Nat :=
  (List.range n).filter (fun i => i % window_stride == 0)

/-- The token windows of the chunking loop: for each start index `i` the slice
`timestamps[i : i + context_window_size]`, which for a Lean list is
`(l.drop i).take context_window_size`. -/
def index_lecture_windows {V : Type} (l : List (TimestampTag V)) :
    List (List (TimestampTag V)) :=
  (window_starts l.length).map (fun i => (l.drop i).take context_window_size)

/-- The `Document` built from one window: `page_content` joins the token texts
with single spaces; `start_time` comes from the window's first tag
(`timestamp_tags_window[0]`); `end_time`, `start_idx` and `end_idx` come from
the window's last tag (`timestamp_tags_window[-1]`); `source` is the supplied
source string.  An empty window yields `none` (in Python an empty window would
raise an `IndexError`; the loop never produces one, since every start index is
below the sequence length). -/
def window_doc {V : Type} (source : String) :
    List (TimestampTag V) → Option (Doc V)
  | [] => none
  | first :: rest =>
      some
        { page_content := String.intercalate " " ((first :: rest).map TimestampTag.name)
          start_time := first.start_time
          end_time := (rest.getLastD first).end_time
          start_idx := (rest.getLastD first).start_idx
          end_idx := (rest.getLastD first).end_idx
          source := source }

/-- The list `documents` accumulated by the chunking loop of `index_lecture`:
one `Document` per window. -/
def index_lecture_chunks {V : Type} (source : String) (l : List (TimestampTag V)) :
    List (Doc V) :=
  (index_lecture_windows l).filterMap (window_doc source)

/-- The final `n` elements of a list (used to state "the last `O` tokens of a
window"). -/
def lastN {α : Type} (n : Nat) (l : List α) : List α :=
  l.drop (l.length - n)

/-- A concrete 301-token sequence (length strictly between 300 and 350, so the
loop emits three windows and the middle one is clipped at the sequence end). -/
def overlapCexTokens : List (TimestampTag Int) :=
  (List.range 301).map (fun n =>
    { name := "w", start_time := Int.ofNat n, end_time := Int.ofNat n,
      start_idx := n, end_idx := n })

/-- The start indices are exactly `window_stride * k` for
`k < ⌈n / window_stride⌉`, in increasing order. -/
theorem window_starts_eq (n : Nat) :
    window_starts n =
      (List.range ((n + window_stride - 1) / window_stride)).map
        (fun k => window_stride * k) := by
  induction n with
  | zero => simp [window_starts, window_stride, context_window_size, context_window_overlap]
  | succ m ih =>
    rw [window_starts, List.range_succ, List.filter_append] at *
    rw [ih]
    by_cases hm : m % window_stride = 0
    · have h1 : (m + 1 + window_stride - 1) / window_stride
          = (m + window_stride - 1) / window_stride + 1 := by
        simp only [window_stride, context_window_size, context_window_overlap] at hm ⊢
        omega
      have h2 : window_stride * ((m + window_stride - 1) / window_stride) = m := by
        simp only [window_stride, context_window_size, context_window_overlap] at hm ⊢
        omega
      rw [h1, List.range_succ, List.map_append]
      simp [hm, h2]
    · have h1 : (m + 1 + window_stride - 1) / window_stride
          = (m + window_stride - 1) / window_stride := by
        simp only [window_stride, context_window_size, context_window_overlap] at hm ⊢
        omega
      rw [h1]
      simp [hm]

theorem window_starts_getElem (n k : Nat) (h : k < (window_starts n).length) :
    (window_starts n)[k] = window_stride * k := by
  have e := window_starts_eq n
  simp only [e, List.getElem_map, List.getElem_range] at h ⊢

theorem window_starts_length (n : Nat) :
    (window_starts n).length = (n + window_stride - 1) / window_stride := by
  rw [window_starts_eq]
  simp

theorem index_lecture_windows_length {V : Type} (l : List (TimestampTag V)) :
    (index_lecture_windows l).length = (window_starts l.length).length := by
  simp [index_lecture_windows]

theorem index_lecture_windows_getElem {V : Type} (l : List (TimestampTag V)) (k : Nat)
    (h : k < (index_lecture_windows l).length) :
    (index_lecture_windows l)[k]
      = (l.drop (window_stride * k)).take context_window_size := by
  have hk : k < (window_starts l.length).length := by
    simpa [index_lecture_windows] using h
  simp only [index_lecture_windows, List.getElem_map]
  rw [window_starts_getElem _ _ hk]

theorem windows_overlap_of_full {V : Type} (l : List (TimestampTag V)) (k : Nat)
    (hk : k + 1 < (index_lecture_windows l).length)
    (hfull : ((index_lecture_windows l).get ⟨k, Nat.lt_of_succ_lt hk⟩).length
        = context_window_size) :
    lastN context_window_overlap ((index_lecture_windows l).get ⟨k, Nat.lt_of_succ_lt hk⟩)
      = ((index_lecture_windows l).get ⟨k + 1, hk⟩).take context_window_overlap := by
  rw [List.get_eq_getElem] at hfull ⊢
  rw [List.get_eq_getElem]
  rw [index_lecture_windows_getElem l k (Nat.lt_of_succ_lt hk)] at hfull ⊢
  rw [index_lecture_windows_getElem l (k + 1) hk]
  rw [lastN, hfull]
  have e1 : context_window_size - context_window_overlap = window_stride := by decide
  rw [e1, List.drop_take]
  have e2 : context_window_size - window_stride = context_window_overlap := by decide
  rw [e2, List.drop_drop, List.take_take]
  have e3 : min context_window_overlap context_window_size = context_window_overlap := by
    decide
  rw [e3]
  have e4 : window_stride * k + window_stride = window_stride * (k + 1) := by ring
  rw [e4]

/-- **C1** (amended): for every token sequence whose length exceeds the window
size `context_window_size = 200`, and for any two consecutive windows of the
chunking loop of `index_lecture` such that the earlier window is full (holds
`context_window_size` tokens — true of every consecutive pair except possibly
the final one, where the earlier window may be clipped by the sequence end),
the last `context_window_overlap = 50` tokens of window `k` equal the first
`context_window_overlap` tokens of window `k + 1`. -/
theorem index_lecture_consecutive_windows_overlap {V : Type}
    (l : List (TimestampTag V)) (_hL : context_window_size < l.length) (k : Nat)
    (hk : k + 1 < (index_lecture_windows l).length)
    (hfull : ((index_lecture_windows l).get ⟨k, Nat.lt_of_succ_lt hk⟩).length
        = context_window_size) :
    lastN context_window_overlap ((index_lecture_windows l).get ⟨k, Nat.lt_of_succ_lt hk⟩)
      = ((index_lecture_windows l).get ⟨k + 1, hk⟩).take context_window_overlap :=
  windows_overlap_of_full l k hk hfull

/-- Witness for C1: on the concrete 301-token input, window 0 is full, and its
last 50 tokens are exactly the first 50 tokens of window 1. -/
theorem index_lecture_consecutive_windows_overlap_witness :
    context_window_size < overlapCexTokens.length ∧
    0 + 1 < (index_lecture_windows overlapCexTokens).length ∧
    ((index_lecture_windows overlapCexTokens).get ⟨0, by decide⟩).length
      = context_window_size ∧
    lastN context_window_overlap
        ((index_lecture_windows overlapCexTokens).get ⟨0, by decide⟩)
      = ((index_lecture_windows overlapCexTokens).get ⟨0 + 1, by decide⟩).take
          context_window_overlap :=
  ⟨by decide, by decide, by decide,
    index_lecture_consecutive_windows_overlap overlapCexTokens (by decide) 0
      (by decide) (by decide)⟩

/-- Counterexample to C1 as stated: on the 301-token input (length > 200),
windows 1 and 2 are consecutive, but the last 50 tokens of window 1 (tokens
251..300) are not the first 50 tokens of window 2 (the single token 300):
the loop's penultimate window may be clipped by the sequence end, in which
case the final consecutive pair shares fewer than 50 tokens. -/
theorem index_lecture_consecutive_windows_overlap_cex :
    context_window_size < overlapCexTokens.length ∧
    1 + 1 < (index_lecture_windows overlapCexTokens).length ∧
    ¬ lastN context_window_overlap
          ((index_lecture_windows overlapCexTokens).getD 1 [])
        = ((index_lecture_windows overlapCexTokens).getD 2 []).take
            context_window_overlap := by
  decide

/-- A concrete single-token sequence for witnesses. -/
def singleTag : TimestampTag Int :=
  { name := "hello", start_time := 3, end_time := 7, start_idx := 0, end_idx := 5 }

/-- **C4.** Every chunk produced by the loop body of `index_lecture` comes from
a window of the loop, with `page_content` the space-joined token texts of that
window, `start_time` from the window's first token, `end_time` / `start_idx` /
`end_idx` from the window's last token, and `source` the supplied source
identifier. -/
theorem index_lecture_chunk_fields {V : Type} (source : String)
    (l : List (TimestampTag V)) (d : Doc V)
    (hd : d ∈ index_lecture_chunks source l) :
    ∃ first rest,
      first :: rest ∈ index_lecture_windows l ∧
      d.page_content = String.intercalate " " ((first :: rest).map TimestampTag.name) ∧
      d.start_time = first.start_time ∧
      d.end_time = ((first :: rest).getLast (List.cons_ne_nil first rest)).end_time ∧
      d.start_idx = ((first :: rest).getLast (List.cons_ne_nil first rest)).start_idx ∧
      d.end_idx = ((first :: rest).getLast (List.cons_ne_nil first rest)).end_idx ∧
      d.source = source := by
  rw [index_lecture_chunks] at hd
  obtain ⟨w, hw, hfw⟩ := List.mem_filterMap.mp hd
  match w with
  | [] => simp [window_doc] at hfw
  | first :: rest =>
    refine ⟨first, rest, hw, ?_⟩
    rw [window_doc] at hfw
    obtain rfl := Option.some.inj hfw
    simp [List.getLast_eq_getLastD]

/-- Witness for C4 on a concrete one-token lecture. -/
theorem index_lecture_chunk_fields_witness :
    ∃ first rest,
      first :: rest ∈ index_lecture_windows [singleTag] ∧
      ({ page_content := "hello", start_time := 3, end_time := 7, start_idx := 0,
         end_idx := 5, source := "s" } : Doc Int).page_content
        = String.intercalate " " ((first :: rest).map TimestampTag.name) ∧
      ({ page_content := "hello", start_time := 3, end_time := 7, start_idx := 0,
         end_idx := 5, source := "s" } : Doc Int).start_time = first.start_time ∧
      ({ page_content := "hello", start_time := 3, end_time := 7, start_idx := 0,
         end_idx := 5, source := "s" } : Doc Int).end_time
        = ((first :: rest).getLast (List.cons_ne_nil first rest)).end_time ∧
      ({ page_content := "hello", start_time := 3, end_time := 7, start_idx := 0,
         end_idx := 5, source := "s" } : Doc Int).start_idx
        = ((first :: rest).getLast (List.cons_ne_nil first rest)).start_idx ∧
      ({ page_content := "hello", start_time := 3, end_time := 7, start_idx := 0,
         end_idx := 5, source := "s" } : Doc Int).end_idx
        = ((first :: rest).getLast (List.cons_ne_nil first rest)).end_idx ∧
      ({ page_content := "hello", start_time := 3, end_time := 7, start_idx := 0,
         end_idx := 5, source := "s" } : Doc Int).source = "s" :=
  index_lecture_chunk_fields "s" [singleTag]
    { page_content := "hello", start_time := 3, end_time := 7, start_idx := 0,
      end_idx := 5, source := "s" } (by decide)

/-- **C5.** Every index of the (sorted) token sequence lies in at least one
window of the chunking loop, and a single-token sequence yields exactly one
chunk consisting of that token. -/
theorem index_lecture_every_token_covered :
    (∀ (V : Type) (l : List (TimestampTag V)) (j : Nat) (h : j < l.length),
        ∃ w ∈ index_lecture_windows l, l.get ⟨j, h⟩ ∈ w) ∧
    (∀ (V : Type) (source : String) (t : TimestampTag V),
        index_lecture_chunks source [t] =
          [{ page_content := t.name, start_time := t.start_time,
             end_time := t.end_time, start_idx := t.start_idx,
             end_idx := t.end_idx, source := source }]) := by
  constructor
  · intro V l j h
    refine ⟨(l.drop (window_stride * (j / window_stride))).take context_window_size,
      ?_, ?_⟩
    · rw [index_lecture_windows]
      apply List.mem_map_of_mem
      rw [window_starts]
      simp only [List.mem_filter, List.mem_range, beq_iff_eq]
      simp only [window_stride, context_window_size, context_window_overlap]
      omega
    · have hle : window_stride * (j / window_stride) ≤ j := by
        simp only [window_stride, context_window_size, context_window_overlap]
        omega
      have hlt : j - window_stride * (j / window_stride) < context_window_size := by
        simp only [window_stride, context_window_size, context_window_overlap]
        omega
      have hlen : j - window_stride * (j / window_stride)
          < (l.drop (window_stride * (j / window_stride))).length := by
        rw [List.length_drop]
        omega
      have hidx : window_stride * (j / window_stride)
          + (j - window_stride * (j / window_stride)) = j := by
        omega
      have e : ((l.drop (window_stride * (j / window_stride))).take
            context_window_size).get
          ⟨j - window_stride * (j / window_stride), by
            rw [List.length_take]
            exact lt_min hlt hlen⟩ = l.get ⟨j, h⟩ := by
        rw [List.get_eq_getElem, List.get_eq_getElem, List.getElem_take,
          List.getElem_drop]
        simp only [hidx]
      rw [← e]
      exact List.get_mem _ _ _
  · intro V source t
    rw [index_lecture_chunks, index_lecture_windows]
    have h1 : window_starts ([t] : List (TimestampTag V)).length = [0] := by
      show window_starts 1 = [0]
      decide
    rw [h1]
    simp only [List.map_cons, List.map_nil, List.drop_zero]
    rw [List.take_of_length_le (by show (1 : Nat) <= context_window_size; decide)]
    simp [window_doc, String.intercalate, String.intercalate.go]

/-- Witness for C5: on the one-token lecture `[singleTag]`, token 0 is covered
by a window, and the chunk list is exactly the one chunk holding that token. -/
theorem index_lecture_every_token_covered_witness :
    (∃ w ∈ index_lecture_windows [singleTag], [singleTag].get ⟨0, by decide⟩ ∈ w) ∧
    index_lecture_chunks "s" [singleTag] =
      [{ page_content := "hello", start_time := 3, end_time := 7, start_idx := 0,
         end_idx := 5, source := "s" }] :=
  ⟨index_lecture_every_token_covered.1 Int [singleTag] 0 (by decide),
    by rw [index_lecture_every_token_covered.2 Int "s" singleTag]; rfl⟩

/-- **C6.** Running the chunking loop of `index_lecture` on an empty token
sequence yields an empty chunk sequence (and an empty window sequence), not an
error. -/
theorem index_lecture_chunks_empty_input (V : Type) (source : String) :
    index_lecture_chunks source ([] : List (TimestampTag V)) = [] ∧
    index_lecture_windows ([] : List (TimestampTag V)) = [] :=
  ⟨rfl, rfl⟩

/-- Python whitespace, ASCII range (the characters `str.strip()` removes for
the strings this API handles). -/
def isPySpace (c : Char) : Bool :=
  c = ' ' || c = '\t' || c = '\n' || c = '\r' || c = '\x0b' || c = '\x0c'

/-- Python `str.strip()`: remove leading and trailing whitespace. -/
def pyStrip (s : String) : String :=
  String.mk (((s.data.dropWhile isPySpace).reverse.dropWhile isPySpace).reverse)

/-- The dictionary returned by `self.qa_chain({...})`: the generated `answer`
and the retrieved `source_documents` (their type `D` is opaque here). -/
structure ChainResult (D : Type) where
  answer : String
  source_documents : List D
deriving DecidableEq, Repr

/-- The dictionary returned by the `/answer` endpoint. -/
structure AnswerResponse (D : Type) where
  answer : String
  sources : List D
deriving DecidableEq, Repr

/-- The Chat History Store, keyed by the (resolved, possibly absent) chat
session id: `load` is application, `append` adds one `(question, answer)`
turn at the end of the keyed list. -/
def ChatStore : Type := Option String → List (String × String)

/-- Line 169: `chat_session_id = chat_session_id or self.config.default_chat_session_id`.
Python `or` tests truthiness, so both `None` and the empty string fall back to
the configured default (itself an `Optional[str]`). -/
def resolved_chat_session_id (chat_session_id default_chat_session_id : Option String) :
    Option String :=
  match chat_session_id with
  | none => default_chat_session_id
  | some s => if s = "" then default_chat_session_id else some s

/-- The fixed degraded answer of the zero-retrieval branch (line 177). -/
def no_sources_answer : String :=
  "No sources found to answer your question. Please try another question."

/-- The `/answer` endpoint (lines 165-185), parametric in the question-answering
chain `qa_chain` (an external collaborator): resolve the session id, load the
chat history, run the chain on the question and history; if zero source
documents were retrieved return the fixed no-sources answer with the (empty)
source list and leave the store untouched; otherwise append
`(question, raw answer)` to the resolved session's history (line 183) and
return the whitespace-stripped answer (line 185) with the sources. -/
def answer {D : Type} (qa_chain : String → List (String × String) → ChainResult D)
    (default_chat_session_id : Option String) (question : String)
    (chat_session_id : Option String) (store : ChatStore) :
    AnswerResponse D × ChatStore :=
  let session := resolved_chat_session_id chat_session_id default_chat_session_id
  let result := qa_chain question (store session)
  if result.source_documents.length = 0 then
    ({ answer := no_sources_answer, sources := result.source_documents }, store)
  else
    ({ answer := pyStrip result.answer, sources := result.source_documents },
      fun k => if k = session then store k ++ [(question, result.answer)] else store k)

/-- The retrieval query of the chain: the question itself when the history is
empty, otherwise the condensed standalone question. -/
def condensed_query (condense : String → List (String × String) → String)
    (question : String) (chat_history : List (String × String)) : String :=
  if chat_history = [] then question else condense question chat_history

/-- Modelled from the spec: the `ChatVectorDBChain` built by `_get_chain` is
framework code not part of this repository, so its retrieve-then-generate step
is modelled from spec section 4.5 — condense the question against the history,
retrieve the nearest chunks for the query, and make the answer-synthesis
generation call only when at least one chunk was retrieved.  The second
component counts the answer-synthesis generation calls made (condensation
calls are not counted). -/
def run_qa_chain {D : Type} (condense : String → List (String × String) → String)
    (retrieve : String → List D) (generate : String → List D → String)
    (question : String) (chat_history : List (String × String)) :
    ChainResult D × Nat :=
  let docs := retrieve (condensed_query condense question chat_history)
  if docs.length = 0 then
    ({ answer := "", source_documents := docs }, 0)
  else
    ({ answer := generate question docs, source_documents := docs }, 1)

/-- Concrete collaborators for witnesses. -/
def wCondense : String → List (String × String) → String := fun q _ => q

def wRetrieveNone : String → List Nat := fun _ => []

def wGenerate : String → List Nat → String := fun _ _ => "generated"

def wStore : ChatStore := fun _ => []

/-- **C2.** When retrieval returns zero chunks, `answer` returns the fixed
no-sources message together with an empty source list, and the (spec-modelled)
chain makes no answer-synthesis generation call. -/
theorem answer_zero_retrieval {D : Type}
    (condense : String → List (String × String) → String)
    (retrieve : String → List D) (generate : String → List D → String)
    (default_chat_session_id : Option String) (question : String)
    (chat_session_id : Option String) (store : ChatStore)
    (hret : retrieve (condensed_query condense question
        (store (resolved_chat_session_id chat_session_id default_chat_session_id)))
      = []) :
    (answer (fun q h => (run_qa_chain condense retrieve generate q h).1)
        default_chat_session_id question chat_session_id store).1
      = { answer := no_sources_answer, sources := [] } ∧
    (run_qa_chain condense retrieve generate question
        (store (resolved_chat_session_id chat_session_id default_chat_session_id))).2
      = 0 := by
  constructor
  · simp [answer, run_qa_chain, hret]
  · simp [run_qa_chain, hret]

/-- Witness for C2 at concrete collaborators that retrieve nothing. -/
theorem answer_zero_retrieval_witness :
    wRetrieveNone (condensed_query wCondense "What is X?"
        (wStore (resolved_chat_session_id none (some "default")))) = [] ∧
    ((answer (fun q h => (run_qa_chain wCondense wRetrieveNone wGenerate q h).1)
        (some "default") "What is X?" none wStore).1
      = { answer := no_sources_answer, sources := [] } ∧
    (run_qa_chain wCondense wRetrieveNone wGenerate "What is X?"
        (wStore (resolved_chat_session_id none (some "default")))).2 = 0) :=
  ⟨rfl, answer_zero_retrieval wCondense wRetrieveNone wGenerate (some "default")
    "What is X?" none wStore rfl⟩

/-- **C10.** An `answer` call whose chain result carries zero source documents
leaves the chat-history store unchanged: the degraded no-sources path appends
nothing. -/
theorem answer_zero_retrieval_store_unchanged {D : Type}
    (qa_chain : String → List (String × String) → ChainResult D)
    (default_chat_session_id : Option String) (question : String)
    (chat_session_id : Option String) (store : ChatStore)
    (hzero : (qa_chain question
        (store (resolved_chat_session_id chat_session_id default_chat_session_id))).source_documents
      = []) :
    (answer qa_chain default_chat_session_id question chat_session_id store).2
      = store := by
  simp [answer, hzero]

/-- A concrete chain returning no source documents. -/
def wChainNoDocs : String → List (String × String) → ChainResult Nat :=
  fun _ _ => { answer := "ignored", source_documents := [] }

/-- Witness for C10. -/
theorem answer_zero_retrieval_store_unchanged_witness :
    (wChainNoDocs "q" (wStore (resolved_chat_session_id none (some "default")))).source_documents
      = [] ∧
    (answer wChainNoDocs (some "default") "q" none wStore).2 = wStore :=
  ⟨rfl, answer_zero_retrieval_store_unchanged wChainNoDocs (some "default") "q" none
    wStore rfl⟩

/-- **C3 (amended).** On every `answer` call whose chain result carries at
least one source document, exactly one `(question, answer)` turn is appended
to the resolved session of the Chat History Store (all other sessions are
untouched) — but the appended answer is the raw generated answer, while the
caller receives its whitespace-trimmed form: in the source the append
(line 183) precedes the trimming, which happens only in the returned payload
(line 185). -/
theorem answer_appends_one_turn {D : Type}
    (qa_chain : String → List (String × String) → ChainResult D)
    (default_chat_session_id : Option String) (question : String)
    (chat_session_id : Option String) (store : ChatStore)
    (hsome : (qa_chain question
        (store (resolved_chat_session_id chat_session_id default_chat_session_id))).source_documents
      ≠ []) :
    (answer qa_chain default_chat_session_id question chat_session_id store).2
        (resolved_chat_session_id chat_session_id default_chat_session_id)
      = store (resolved_chat_session_id chat_session_id default_chat_session_id)
        ++ [(question, (qa_chain question
              (store (resolved_chat_session_id chat_session_id default_chat_session_id))).answer)] ∧
    (∀ k, k ≠ resolved_chat_session_id chat_session_id default_chat_session_id →
        (answer qa_chain default_chat_session_id question chat_session_id store).2 k
          = store k) ∧
    (answer qa_chain default_chat_session_id question chat_session_id store).1.answer
      = pyStrip (qa_chain question
          (store (resolved_chat_session_id chat_session_id default_chat_session_id))).answer := by
  have hlen : ¬ ((qa_chain question
      (store (resolved_chat_session_id chat_session_id default_chat_session_id))).source_documents.length
        = 0) := by
    simpa [List.length_eq_zero] using hsome
  refine ⟨?_, ?_, ?_⟩
  · simp [answer, hlen]
  · intro k hk
    simp [answer, hlen, hk]
  · simp [answer, hlen]

/-- A concrete chain whose generated answer carries surrounding whitespace. -/
def wChainPadded : String → List (String × String) → ChainResult Nat :=
  fun _ _ => { answer := " padded answer ", source_documents := [7] }

/-- Witness for the amended C3 at the concrete padded-answer chain. -/
theorem answer_appends_one_turn_witness :
    (wChainPadded "q" (wStore (resolved_chat_session_id (some "session") (some "default")))).source_documents
      ≠ [] ∧
    ((answer wChainPadded (some "default") "q" (some "session") wStore).2
        (resolved_chat_session_id (some "session") (some "default"))
      = wStore (resolved_chat_session_id (some "session") (some "default"))
        ++ [("q", (wChainPadded "q"
              (wStore (resolved_chat_session_id (some "session") (some "default")))).answer)] ∧
    (∀ k, k ≠ resolved_chat_session_id (some "session") (some "default") →
        (answer wChainPadded (some "default") "q" (some "session") wStore).2 k
          = wStore k) ∧
    (answer wChainPadded (some "default") "q" (some "session") wStore).1.answer
      = pyStrip (wChainPadded "q"
          (wStore (resolved_chat_session_id (some "session") (some "default")))).answer) :=
  ⟨by decide, answer_appends_one_turn wChainPadded (some "default") "q" (some "session")
    wStore (by decide)⟩

/-- Counterexample to C3 as stated: with a generated answer of
`" padded answer "`, the appended turn holds the raw answer, the caller
receives the trimmed `"padded answer"`, and the appended turn is **not**
`(question, trimmed answer)` — the append precedes the trimming. -/
theorem answer_appends_one_turn_cex :
    (answer wChainPadded (some "default") "q" (some "session") wStore).2 (some "session")
      = [("q", " padded answer ")] ∧
    (answer wChainPadded (some "default") "q" (some "session") wStore).1.answer
      = "padded answer" ∧
    ¬ (answer wChainPadded (some "default") "q" (some "session") wStore).2 (some "session")
        = [("q", (answer wChainPadded (some "default") "q" (some "session") wStore).1.answer)] := by
  decide

/-- **C9.** Session-id resolution uses Python truthiness (`or`), so an empty
string — not only an absent `None` — is replaced by the configured default,
while a nonempty session id is kept. -/
theorem resolved_chat_session_id_empty_string
    (default_chat_session_id : Option String) (s : String) (hs : s ≠ "") :
    resolved_chat_session_id (some "") default_chat_session_id
      = default_chat_session_id ∧
    resolved_chat_session_id none default_chat_session_id
      = default_chat_session_id ∧
    resolved_chat_session_id (some s) default_chat_session_id = some s := by
  refine ⟨by simp [resolved_chat_session_id], rfl, by simp [resolved_chat_session_id, hs]⟩

/-- Witness for C9. -/
theorem resolved_chat_session_id_empty_string_witness :
    ("abc" : String) ≠ "" ∧
    (resolved_chat_session_id (some "") (some "default") = some "default" ∧
    resolved_chat_session_id none (some "default") = some "default" ∧
    resolved_chat_session_id (some "abc") (some "default") = some "abc") :=
  ⟨by decide, resolved_chat_session_id_empty_string (some "default") "abc" (by decide)⟩

/-- A Steamship tag on a file record, as read by `_update_file_status`. -/
structure FileTag where
  kind : String
  name : String
deriving DecidableEq, Repr

/-- The observable outcome of one external `status_tag.delete()` call:
it may succeed (marker removed), or raise a `SteamshipError` with the marker
already gone (e.g. deleted concurrently), or raise a `SteamshipError` with the
marker still present (e.g. a transient service failure).  In every error case
the `except SteamshipError: pass` of `_update_file_status` swallows the
exception. -/
inductive DeleteOutcome
  | deleted
  | errorGone
  | errorKept
deriving DecidableEq, Repr

/-- `_update_file_status` (lines 88-98): refresh the file, iterate over its
`kind == "status"` tags deleting each one (errors caught and ignored), then
create the new status tag.  A pre-existing tag survives iff it is not a status
tag or its deletion failed with the marker still present; the new status tag
is always created. -/
def update_file_status (outcome : FileTag → DeleteOutcome) (tags : List FileTag)
    (status : String) : List FileTag :=
  tags.filter (fun tag => tag.kind != "status" || outcome tag == DeleteOutcome.errorKept)
    ++ [{ kind := "status", name := status }]

/-- The number of status markers on a record. -/
def countStatusTags (tags : List FileTag) : Nat :=
  (tags.filter (fun tag => tag.kind == "status")).length

/-- **C7 (amended).** `_update_file_status` tries to delete every existing
status marker, swallowing deletion failures, and the new status marker is
always created; provided no deletion failure left its marker in place (each
old marker was deleted or was already gone), the updated record carries
exactly one status marker.  (A swallowed failure that leaves the old marker in
place makes the old and new markers coexist; see the counterexample.) -/
theorem update_file_status_single_marker (outcome : FileTag → DeleteOutcome)
    (tags : List FileTag) (status : String)
    (hremoved : ∀ tag ∈ tags, tag.kind = "status" →
        outcome tag ≠ DeleteOutcome.errorKept) :
    ({ kind := "status", name := status } : FileTag)
        ∈ update_file_status outcome tags status ∧
    countStatusTags (update_file_status outcome tags status) = 1 := by
  constructor
  · simp [update_file_status]
  · rw [countStatusTags, update_file_status, List.filter_append]
    have h1 : (tags.filter
        (fun tag => tag.kind != "status" || outcome tag == DeleteOutcome.errorKept)).filter
          (fun tag => tag.kind == "status") = [] := by
      refine List.filter_eq_nil_iff.mpr ?_
      intro a ha
      obtain ⟨hmem, hpass⟩ := List.mem_filter.mp ha
      intro hstat
      have hkind : a.kind = "status" := by simpa using hstat
      have hne := hremoved a hmem hkind
      simp [hkind, hne] at hpass
    rw [h1]
    simp

/-- All deletions succeed. -/
def deletedOutcome : FileTag → DeleteOutcome := fun _ => DeleteOutcome.deleted

/-- Witness for the amended C7: a record with an old status marker and a
source tag, all deletions succeeding. -/
theorem update_file_status_single_marker_witness :
    (∀ tag ∈ [({ kind := "status", name := "Transcribing" } : FileTag),
        { kind := "source", name := "url" }], tag.kind = "status" →
        deletedOutcome tag ≠ DeleteOutcome.errorKept) ∧
    (({ kind := "status", name := "Indexing" } : FileTag)
        ∈ update_file_status deletedOutcome
          [{ kind := "status", name := "Transcribing" },
           { kind := "source", name := "url" }] "Indexing" ∧
    countStatusTags (update_file_status deletedOutcome
      [{ kind := "status", name := "Transcribing" },
       { kind := "source", name := "url" }] "Indexing") = 1) :=
  ⟨by decide, update_file_status_single_marker deletedOutcome
    [{ kind := "status", name := "Transcribing" },
     { kind := "source", name := "url" }] "Indexing" (by decide)⟩

/-- Every deletion raises with the marker left in place. -/
def keptOutcome : FileTag → DeleteOutcome := fun _ => DeleteOutcome.errorKept

/-- Counterexample to C7 as stated: when the swallowed deletion failure leaves
the old marker in place, the new marker is still written, and the completed
update leaves **two** status markers on the record, not one. -/
theorem update_file_status_single_marker_cex :
    ({ kind := "status", name := "Indexing" } : FileTag)
        ∈ update_file_status keptOutcome
          [{ kind := "status", name := "Transcribing" }] "Indexing" ∧
    countStatusTags (update_file_status keptOutcome
      [{ kind := "status", name := "Transcribing" }] "Indexing") = 2 ∧
    ¬ countStatusTags (update_file_status keptOutcome
        [{ kind := "status", name := "Transcribing" }] "Indexing") = 1 := by
  decide

/-- One externally visible side effect of the ingestion pipeline for a single
lecture. -/
inductive PipelineEvent
  | sourceTagCreated (source : String)
  | titleTagCreated
  | statusWrite (status : String)
  | blockifySubmitted
  | chunksInserted
deriving DecidableEq, Repr

/-- Side-effect order of `transcribe_lecture` (lines 134-150): create the
`source` tag, create the `title` tag, set status `Transcribing`, then submit
the transcription job (scheduling `index_lecture` to run after it). -/
def transcribe_lecture_trace (source : String) : List PipelineEvent :=
  [PipelineEvent.sourceTagCreated source, PipelineEvent.titleTagCreated,
   PipelineEvent.statusWrite "Transcribing", PipelineEvent.blockifySubmitted]

/-- Side-effect order of `index_lecture` (lines 100-132): set status
`Indexing` (line 104), insert the chunk documents into the vector index
(line 130), set status `Indexed` (line 131). -/
def index_lecture_trace : List PipelineEvent :=
  [PipelineEvent.statusWrite "Indexing", PipelineEvent.chunksInserted,
   PipelineEvent.statusWrite "Indexed"]

/-- The per-lecture pipeline trace: `transcribe_lecture` runs first and
`index_lecture` is scheduled — via `invoke_later` waiting on the transcription
task — strictly after it completes. -/
def lecture_pipeline_trace (source : String) : List PipelineEvent :=
  transcribe_lecture_trace source ++ index_lecture_trace

/-- The sequence of status values written during a trace, in order. -/
def statusWrites (trace : List PipelineEvent) : List String :=
  trace.filterMap (fun e =>
    match e with
    | PipelineEvent.statusWrite s => some s
    | _ => none)

/-- **C8.** For every lecture, the pipeline writes status markers in the
strict order `Transcribing`, `Indexing`, `Indexed`; every `Indexed` write is
preceded by an earlier `Indexing` write; and within `index_lecture` the
`Indexing` write precedes the chunk insertion, which precedes the `Indexed`
write. -/
theorem lecture_status_order (source : String) :
    statusWrites (lecture_pipeline_trace source)
      = ["Transcribing", "Indexing", "Indexed"] ∧
    (∀ i : Fin (statusWrites (lecture_pipeline_trace source)).length,
        (statusWrites (lecture_pipeline_trace source)).get i = "Indexed" →
        ∃ j : Fin (statusWrites (lecture_pipeline_trace source)).length,
          j.val < i.val ∧
          (statusWrites (lecture_pipeline_trace source)).get j = "Indexing") ∧
    (∃ i j k : Fin index_lecture_trace.length,
        i.val < j.val ∧ j.val < k.val ∧
        index_lecture_trace.get i = PipelineEvent.statusWrite "Indexing" ∧
        index_lecture_trace.get j = PipelineEvent.chunksInserted ∧
        index_lecture_trace.get k = PipelineEvent.statusWrite "Indexed") := by
  refine ⟨rfl, ?_, ?_⟩
  · have h : statusWrites (lecture_pipeline_trace source)
        = ["Transcribing", "Indexing", "Indexed"] := rfl
    rw [h]
    decide
  · exact ⟨⟨0, by decide⟩, ⟨1, by decide⟩, ⟨2, by decide⟩, by decide, by decide,
      rfl, rfl, rfl⟩
